import Mathlib

/-!
Verification of the vehicle-listings dashboard (src/app.py): a shallow
embedding of the data-cleaning routine `cleaning` and of the three chart
builders `plot_scatter`, `plot_condition_mean`, `plot_type_mean`.

A table is a list of rows; each cell holds a pandas-style value: a missing
marker (NaN/NaT), a rational number, a string, or a parsed date.
-/

namespace Vehicles


/-- Cell values of the table: missing (NaN/NaT), a number, a string, or a
parsed date (as in the column produced by the date-parsing step). -/
inductive Value where
  | missing : Value
  | num : ℚ → Value
  | str : String → Value
  | date : ℤ → Value
deriving DecidableEq

/-- One row of the vehicles table, with the columns src/app.py touches. -/
structure Row where
  is_4wd : Value
  odometer : Value
  cylinders : Value
  model_year : Value
  paint_color : Value
  date_posted : Value
  price : Value
  condition : Value
  type : Value
  model : Value
deriving DecidableEq

/-- A table is a list of rows. -/
abbrev Table := List Row

/-- Elementwise effect of replace on the is_4wd column (app.py line 26):
the numeric marker 1 becomes the string Yes, a missing value becomes the
string No, anything else is left unchanged. -/
def replace4wd (v : Value) : Value :=
  if v = Value.num 1 then Value.str "Yes"
  else if v = Value.missing then Value.str "No"
  else v

/-- Elementwise fillna 0 (app.py lines 29-31). -/
def fillZero (v : Value) : Value :=
  if v = Value.missing then Value.num 0 else v

/-- Elementwise fillna with the literal string random (app.py line 34). -/
def fillRandom (v : Value) : Value :=
  if v = Value.missing then Value.str "random" else v

/-- Cleaning step 1: the is_4wd replace (app.py line 26). -/
def step1 (t : Table) : Table :=
  t.map (fun r => { r with is_4wd := replace4wd r.is_4wd })

/-- Cleaning step 2: zero-fill of odometer, cylinders, model_year
(app.py lines 29-31). -/
def step2 (t : Table) : Table :=
  t.map (fun r => { r with odometer := fillZero r.odometer,
                           cylinders := fillZero r.cylinders,
                           model_year := fillZero r.model_year })

/-- Cleaning step 3: fill of paint_color (app.py line 34). -/
def step3 (t : Table) : Table :=
  t.map (fun r => { r with paint_color := fillRandom r.paint_color })

/-- Total order used to break ties when picking the first listed mode,
mirroring the sorted output of a pandas mode computation. -/
def valueLe (a b : Value) : Bool :=
  match a, b with
  | Value.missing, _ => true
  | _, Value.missing => false
  | Value.num p, Value.num q => decide (p ≤ q)
  | Value.num _, _ => true
  | _, Value.num _ => false
  | Value.str s1, Value.str s2 => decide (s1 ≤ s2)
  | Value.str _, _ => true
  | _, Value.str _ => false
  | Value.date d1, Value.date d2 => decide (d1 ≤ d2)

/-- Number of occurrences of a value in a list of cells. -/
def countOcc (l : List Value) (v : Value) : Nat :=
  (l.filter (fun x => x == v)).length

/-- The pandas mode of a series: the most frequent non-missing value
(smallest first on ties), or none when every value is missing. -/
def seriesMode (l : List Value) : Option Value :=
  let nm := l.filter (fun v => v != Value.missing)
  nm.foldl (fun acc v =>
    match acc with
    | none => some v
    | some m =>
      if countOcc nm v > countOcc nm m then some v
      else if countOcc nm v == countOcc nm m && valueLe v m then some v
      else some m) none

/-- Per-row effect of the groupby transform on cylinders (app.py lines
37-39): a row whose model key is missing is dropped from every group, so
its transformed value is missing; otherwise a missing cylinders value is
filled with the mode of cylinders within the row's model group (left
missing when the group has no non-missing value), and a present value is
kept. -/
def modeFillCyl (t : Table) (r : Row) : Value :=
  if r.model = Value.missing then Value.missing
  else if r.cylinders = Value.missing then
    match seriesMode ((t.filter (fun r2 => r2.model == r.model)).map Row.cylinders) with
    | some m => m
    | none => Value.missing
  else r.cylinders

/-- Cleaning step 4: the groupby-mode re-fill of cylinders
(app.py lines 37-39). -/
def step4 (t : Table) : Table :=
  t.map (fun r => { r with cylinders := modeFillCyl t r })

/-- The fill part of cleaning: steps 1 through 4. -/
def steps14 (t : Table) : Table :=
  step4 (step3 (step2 (step1 t)))

/-- Numeric value of a digit string. -/
def digitsVal (l : List Char) : ℕ :=
  l.foldl (fun a c => a * 10 + (c.toNat - 48)) 0

/-- Recognizer for date strings of the dataset's YYYY-MM-DD shape; anything
else (such as the literal not-a-date) is unparseable. -/
def validDateString (s : String) : Bool :=
  match s.toList with
  | [y1, y2, y3, y4, h1, m1, m2, h2, d1, d2] =>
      y1.isDigit && y2.isDigit && y3.isDigit && y4.isDigit &&
      h1 == '-' && m1.isDigit && m2.isDigit && h2 == '-' &&
      d1.isDigit && d2.isDigit
  | _ => false

/-- Integer code of a well-formed date string (its digits read as a
number), standing in for the parsed timestamp. -/
def dateCode (s : String) : ℤ :=
  Int.ofNat (digitsVal (s.toList.filter Char.isDigit))

/-- Truncation of a rational toward zero, the way a float is cast to int. -/
def ratTrunc (q : ℚ) : ℤ :=
  if 0 ≤ q.num then Int.ofNat (q.num.toNat / q.den)
  else - Int.ofNat ((- q.num).toNat / q.den)

/-- Elementwise date parsing (app.py line 45): missing stays missing (NaT),
an already parsed date is kept, a number is read as a timestamp, and a
string parses only when it has the recognized date shape. -/
def parseDate (v : Value) : Option Value :=
  match v with
  | Value.missing => some Value.missing
  | Value.date d => some (Value.date d)
  | Value.num q => some (Value.date (ratTrunc q))
  | Value.str s => if validDateString s then some (Value.date (dateCode s)) else none

/-- Integer reading of a string cell, as the int() coercion does: an
optional sign followed by digits; anything else fails. -/
def strToInt (s : String) : Option ℤ :=
  match s.toList with
  | [] => none
  | '-' :: rest =>
      if !rest.isEmpty && rest.all Char.isDigit then some (- Int.ofNat (digitsVal rest)) else none
  | '+' :: rest =>
      if !rest.isEmpty && rest.all Char.isDigit then some (Int.ofNat (digitsVal rest)) else none
  | l => if l.all Char.isDigit then some (Int.ofNat (digitsVal l)) else none

/-- Elementwise astype int (app.py lines 46-48): a number truncates toward
zero, an integer-literal string is read, and a missing value, a date or any
other string cannot be represented as an integer. -/
def toInt (v : Value) : Option ℤ :=
  match v with
  | Value.num q => some (ratTrunc q)
  | Value.str s => strToInt s
  | Value.missing => none
  | Value.date _ => none

/-- The two failure kinds of cleaning: an unparseable date, or a value of a
numeric column that cannot be represented as an integer. -/
inductive CleanError where
  | parseError : CleanError
  | typeCoercionError : CleanError
deriving DecidableEq

/-- Row update done by a successful date-parsing step. -/
def dateFix (r : Row) : Row :=
  { r with date_posted := (parseDate r.date_posted).getD Value.missing }

/-- Row update done by a successful odometer coercion. -/
def odoFix (r : Row) : Row :=
  { r with odometer := Value.num (((toInt r.odometer).getD 0 : ℤ) : ℚ) }

/-- Row update done by a successful cylinders coercion. -/
def cylFix (r : Row) : Row :=
  { r with cylinders := Value.num (((toInt r.cylinders).getD 0 : ℤ) : ℚ) }

/-- Row update done by a successful model_year coercion. -/
def myFix (r : Row) : Row :=
  { r with model_year := Value.num (((toInt r.model_year).getD 0 : ℤ) : ℚ) }

/-- Cleaning step 5 (app.py line 45): to_datetime over the date_posted
column; the whole column parses or the whole call raises. -/
def step5 (t : Table) : Except CleanError Table :=
  if t.all (fun r => (parseDate r.date_posted).isSome) then Except.ok (t.map dateFix)
  else Except.error CleanError.parseError

/-- Coercion of the odometer column to int (app.py line 46): the whole
column converts or the whole call raises. -/
def coerceOdometer (t : Table) : Except CleanError Table :=
  if t.all (fun r => (toInt r.odometer).isSome) then Except.ok (t.map odoFix)
  else Except.error CleanError.typeCoercionError

/-- Coercion of the cylinders column to int (app.py line 47). -/
def coerceCylinders (t : Table) : Except CleanError Table :=
  if t.all (fun r => (toInt r.cylinders).isSome) then Except.ok (t.map cylFix)
  else Except.error CleanError.typeCoercionError

/-- Coercion of the model_year column to int (app.py line 48). -/
def coerceModelYear (t : Table) : Except CleanError Table :=
  if t.all (fun r => (toInt r.model_year).isSome) then Except.ok (t.map myFix)
  else Except.error CleanError.typeCoercionError

/-- The cleaning routine of src/app.py as a value-level function: the fill
steps 1-4, then date parsing, then the three integer coercions in source
order; the first raised error aborts the call with no returned table. -/
def cleaning (data : Table) : Except CleanError Table :=
  match step5 (steps14 data) with
  | Except.error e => Except.error e
  | Except.ok t5 =>
    match coerceOdometer t5 with
    | Except.error e => Except.error e
    | Except.ok t6 =>
      match coerceCylinders t6 with
      | Except.error e => Except.error e
      | Except.ok t7 => coerceModelYear t7

/-- State of the argument table after a call to cleaning: each column
assignment in src/app.py writes into the caller's table in place, so the
argument keeps every assignment completed before the first failure, and on
success it holds the fully cleaned table. -/
def cleaningArgAfter (data : Table) : Table :=
  match step5 (steps14 data) with
  | Except.error _ => steps14 data
  | Except.ok t5 =>
    match coerceOdometer t5 with
    | Except.error _ => t5
    | Except.ok t6 =>
      match coerceCylinders t6 with
      | Except.error _ => t6
      | Except.ok t7 =>
        match coerceModelYear t7 with
        | Except.error _ => t7
        | Except.ok t8 => t8

/-- One point of the scatter chart built by plot_scatter (app.py lines
82-97): x is odometer, y is price, the color category is condition, the
size metric is model_year, the hover fields are model and type. -/
structure ScatterPoint where
  x : Value
  y : Value
  color : Value
  size : Value
  hoverModel : Value
  hoverType : Value
deriving DecidableEq

/-- The scatter chart spec: one point per row, fixed opacity. -/
structure ScatterChart where
  points : List ScatterPoint
  opacity : ℚ
deriving DecidableEq

/-- A bar chart spec: one key and one value per bar, in order, plus the
bar direction. -/
structure BarChart where
  keys : List Value
  values : List Value
  horizontal : Bool
deriving DecidableEq

/-- The distinct group keys produced by a pandas groupby with its default
settings: missing keys are dropped and the distinct remaining keys come
out sorted ascending. -/
def groupKeys (l : List Value) : List Value :=
  List.insertionSort (fun a b => valueLe a b = true) ((l.filter (fun v => v != Value.missing)).dedup)

/-- The numeric content of a cell, when it has one. -/
def numOf : Value → Option ℚ
  | Value.num q => some q
  | _ => none

/-- The pandas mean of a column: the average of its numeric values,
skipping missing ones; missing when no numeric value is present. -/
def meanValue (l : List Value) : Value :=
  let qs := l.filterMap numOf
  if qs.isEmpty then Value.missing else Value.num (qs.sum / (qs.length : ℚ))

/-- The rows of a table whose condition equals the given key. -/
def condRows (t : Table) (k : Value) : Table :=
  t.filter (fun r => r.condition == k)

/-- The rows of a table whose type equals the given key. -/
def typeRows (t : Table) (k : Value) : Table :=
  t.filter (fun r => r.type == k)

/-- plot_scatter (app.py lines 68-98): one point per row, opacity 0.6. -/
def plot_scatter (data : Table) : ScatterChart :=
  { points := data.map (fun r =>
      { x := r.odometer, y := r.price, color := r.condition,
        size := r.model_year, hoverModel := r.model, hoverType := r.type }),
    opacity := 3 / 5 }

/-- plot_condition_mean (app.py lines 108-125): group rows by condition,
average price per group, one vertical bar per group in group-key order. -/
def plot_condition_mean (data : Table) : BarChart :=
  let keys := groupKeys (data.map Row.condition)
  { keys := keys,
    values := keys.map (fun k => meanValue ((condRows data k).map Row.price)),
    horizontal := false }

/-- plot_type_mean (app.py lines 135-153): group rows by type, average
price per group, one horizontal bar per group in group-key order. -/
def plot_type_mean (data : Table) : BarChart :=
  let keys := groupKeys (data.map Row.type)
  { keys := keys,
    values := keys.map (fun k => meanValue ((typeRows data k).map Row.price)),
    horizontal := true }

/-! ### Basic facts about the elementwise operations -/

/-- Decidable equality on cleaning results. -/
instance : DecidableEq (Except CleanError Table) := fun a b =>
  match a, b with
  | Except.ok x, Except.ok y => decidable_of_iff (x = y) (by simp)
  | Except.error e, Except.error f => decidable_of_iff (e = f) (by simp)
  | Except.ok _, Except.error _ => Decidable.isFalse (by simp)
  | Except.error _, Except.ok _ => Decidable.isFalse (by simp)

/-- Whether a cell holds a number. -/
def isNum : Value → Bool
  | Value.num _ => true
  | _ => false

/-- Whether a cell holds a number or is missing. -/
def numOrMissing : Value → Bool
  | Value.num _ => true
  | Value.missing => true
  | _ => false

/-! ### Characterization of a cleaning run -/

/-- The combined per-row effect of the fill steps 1-3. -/
def f123 (r : Row) : Row :=
  { r with is_4wd := replace4wd r.is_4wd,
           odometer := fillZero r.odometer,
           cylinders := fillZero r.cylinders,
           model_year := fillZero r.model_year,
           paint_color := fillRandom r.paint_color }

/-- The per-row guard a row must pass for the date parsing and the three
integer coercions to go through. -/
def rowGuards (r : Row) : Bool :=
  (parseDate r.date_posted).isSome && (toInt r.odometer).isSome &&
  (toInt r.cylinders).isSome && (toInt r.model_year).isSome

/-- The per-row effect of a successful date parse followed by the three
successful coercions. -/
def finalRow (r : Row) : Row :=
  myFix (cylFix (odoFix (dateFix r)))

/-- What a successful cleaning run does to the row at a given position:
the fill steps 1-3, the groupby re-fill of cylinders against the filled
table, then the date parse and the three integer coercions. -/
def cleanRowIn (t : Table) (r0 : Row) : Row :=
  finalRow { f123 r0 with cylinders := modeFillCyl (t.map f123) (f123 r0) }

/-- Shape of every row of a successfully cleaned table: is_4wd is neither
the numeric marker 1 nor missing, the three numeric columns hold integers,
paint_color is present, date_posted is NaT or a parsed date, and the model
key is present. -/
def CleanedRow (r : Row) : Prop :=
  r.is_4wd ≠ Value.num 1 ∧ r.is_4wd ≠ Value.missing ∧
  (∃ k : ℤ, r.odometer = Value.num ((k : ℤ) : ℚ)) ∧
  (∃ k : ℤ, r.cylinders = Value.num ((k : ℤ) : ℚ)) ∧
  (∃ k : ℤ, r.model_year = Value.num ((k : ℤ) : ℚ)) ∧
  r.paint_color ≠ Value.missing ∧
  (r.date_posted = Value.missing ∨ ∃ d : ℤ, r.date_posted = Value.date d) ∧
  r.model ≠ Value.missing

/-! ### Chart-builder lemmas -/

/-- The numeric price of a row, for stating mean formulas. -/
def priceQ (r : Row) : ℚ :=
  match r.price with
  | Value.num q => q
  | _ => 0

/-! ### Concrete tables for counterexamples and instantiations -/

/-- Positional row builder: is_4wd, odometer, cylinders, model_year,
paint_color, date_posted, price, condition, type, model. -/
def mkRow (a b c d e f g h i j : Value) : Row :=
  { is_4wd := a, odometer := b, cylinders := c, model_year := d, paint_color := e,
    date_posted := f, price := g, condition := h, type := i, model := j }

/-- A one-row table whose is_4wd value is the number 0: the replace maps
neither 0 nor any value other than 1 and NaN, so 0 survives cleaning. -/
def tblC1 : Table :=
  [mkRow (Value.num 0) (Value.num 10) (Value.num 4) (Value.num 2000) (Value.str "red")
    Value.missing (Value.num 100) (Value.str "good") (Value.str "sedan") (Value.str "m")]

/-- A two-row table whose raw is_4wd values are the marker 1 and missing. -/
def tblC1w : Table :=
  [mkRow (Value.num 1) Value.missing Value.missing Value.missing Value.missing
    Value.missing (Value.num 5) (Value.str "good") (Value.str "sedan") (Value.str "m"),
   mkRow Value.missing (Value.num 7) (Value.num 6) (Value.num 1999) (Value.str "blue")
    Value.missing (Value.num 9) (Value.str "fair") (Value.str "suv") (Value.str "m")]

/-- The cleaned form of tblC1w. -/
def tblC1wClean : Table :=
  [mkRow (Value.str "Yes") (Value.num 0) (Value.num 0) (Value.num 0) (Value.str "random")
    Value.missing (Value.num 5) (Value.str "good") (Value.str "sedan") (Value.str "m"),
   mkRow (Value.str "No") (Value.num 7) (Value.num 6) (Value.num 1999) (Value.str "blue")
    Value.missing (Value.num 9) (Value.str "fair") (Value.str "suv") (Value.str "m")]

/-- A one-row table whose model key is missing. -/
def tblC2 : Table :=
  [mkRow Value.missing Value.missing Value.missing Value.missing Value.missing
    Value.missing (Value.num 8) (Value.str "good") (Value.str "sedan") Value.missing]

/-- The same one-row table with the model key present. -/
def tblC2w : Table :=
  [mkRow Value.missing Value.missing Value.missing Value.missing Value.missing
    Value.missing (Value.num 8) (Value.str "good") (Value.str "sedan") (Value.str "m")]

/-- A one-row table with a missing odometer, whose cleaning succeeds. -/
def tblC3 : Table :=
  [mkRow (Value.num 1) Value.missing (Value.num 4) (Value.num 2000) (Value.str "red")
    Value.missing (Value.num 100) (Value.str "good") (Value.str "sedan") (Value.str "m")]

/-- The cleaned form of tblC3. -/
def tblC3clean : Table :=
  [mkRow (Value.str "Yes") (Value.num 0) (Value.num 4) (Value.num 2000) (Value.str "red")
    Value.missing (Value.num 100) (Value.str "good") (Value.str "sedan") (Value.str "m")]

/-- A one-row table whose date_posted is the literal not-a-date. -/
def tblC4 : Table :=
  [mkRow (Value.num 1) (Value.num 5) (Value.num 4) (Value.num 2000) (Value.str "red")
    (Value.str "not-a-date") (Value.num 100) (Value.str "good") (Value.str "sedan")
    (Value.str "m")]

/-- A one-row table with both an unparseable date and a non-coercible
cylinders value. -/
def tblC5 : Table :=
  [mkRow (Value.num 1) (Value.num 5) (Value.str "abc") (Value.num 2000) (Value.str "red")
    (Value.str "not-a-date") (Value.num 100) (Value.str "good") (Value.str "sedan")
    (Value.str "m")]

/-- A one-row raw table on which cleaning succeeds with several fills. -/
def tblC6 : Table :=
  [mkRow Value.missing (Value.num 3) Value.missing (Value.num 2005) Value.missing
    Value.missing (Value.num 50) (Value.str "fair") (Value.str "suv") (Value.str "k")]

/-- The cleaned form of tblC6. -/
def tblC6clean : Table :=
  [mkRow (Value.str "No") (Value.num 3) (Value.num 0) (Value.num 2005) (Value.str "random")
    Value.missing (Value.num 50) (Value.str "fair") (Value.str "suv") (Value.str "k")]

/-- A one-row table whose five fill columns and model key are all missing. -/
def tblC7 : Table :=
  [mkRow Value.missing Value.missing Value.missing Value.missing Value.missing
    Value.missing (Value.num 100) (Value.str "good") (Value.str "sedan") Value.missing]

/-- A two-row table: an all-missing row with its model present, and a row
with the numeric is_4wd marker 1. -/
def tblC7w : Table :=
  [mkRow Value.missing Value.missing Value.missing Value.missing Value.missing
    Value.missing (Value.num 100) (Value.str "good") (Value.str "sedan") (Value.str "m"),
   mkRow (Value.num 1) (Value.num 2) (Value.num 4) (Value.num 2001) (Value.str "red")
    Value.missing (Value.num 7) (Value.str "good") (Value.str "suv") (Value.str "m")]

/-- The cleaned form of tblC7w. -/
def tblC7wClean : Table :=
  [mkRow (Value.str "No") (Value.num 0) (Value.num 0) (Value.num 0) (Value.str "random")
    Value.missing (Value.num 100) (Value.str "good") (Value.str "sedan") (Value.str "m"),
   mkRow (Value.str "Yes") (Value.num 2) (Value.num 4) (Value.num 2001) (Value.str "red")
    Value.missing (Value.num 7) (Value.str "good") (Value.str "suv") (Value.str "m")]

/-- A cleaned two-row table with two rows of condition good priced 100 and
200. -/
def tblC8 : Table :=
  [mkRow (Value.str "Yes") (Value.num 1) (Value.num 4) (Value.num 2000) (Value.str "red")
    Value.missing (Value.num 100) (Value.str "good") (Value.str "sedan") (Value.str "m"),
   mkRow (Value.str "No") (Value.num 2) (Value.num 4) (Value.num 2001) (Value.str "blue")
    Value.missing (Value.num 200) (Value.str "good") (Value.str "suv") (Value.str "m")]

/-- A cleaned single row with a numeric price, for the single-row cases. -/
def rowC9 : Row :=
  mkRow (Value.str "Yes") (Value.num 1) (Value.num 4) (Value.num 2000) (Value.str "red")
    Value.missing (Value.num 100) (Value.str "good") (Value.str "sedan") (Value.str "m")

/-- A two-row table with a fractional odometer in one row and an
unparseable date in the other. -/
def tblC10 : Table :=
  [mkRow (Value.num 1) (Value.num (mkRat 3 2)) (Value.num 4) (Value.num 2000) (Value.str "red")
    Value.missing (Value.num 100) (Value.str "good") (Value.str "sedan") (Value.str "m"),
   mkRow (Value.num 1) (Value.num 5) (Value.num 4) (Value.num 2000) (Value.str "red")
    (Value.str "not-a-date") (Value.num 100) (Value.str "good") (Value.str "sedan")
    (Value.str "m")]

/-- A one-row table with fractional values in odometer and model_year. -/
def tblC10w : Table :=
  [mkRow (Value.num 1) (Value.num (mkRat 3 2)) (Value.num 4) (Value.num (-(mkRat 3 2)))
    (Value.str "red") Value.missing (Value.num 100) (Value.str "good") (Value.str "sedan")
    (Value.str "m")]

theorem replace4wd_ne_one (v : Value) : replace4wd v ≠ Value.num 1 := by
  unfold replace4wd
  split
  · simp
  · split <;> simp_all

theorem replace4wd_ne_missing (v : Value) : replace4wd v ≠ Value.missing := by
  unfold replace4wd
  split
  · simp
  · split <;> simp_all

theorem replace4wd_of_ne (v : Value) (h1 : v ≠ Value.num 1) (h2 : v ≠ Value.missing) :
    replace4wd v = v := by
  unfold replace4wd
  rw [if_neg h1, if_neg h2]

theorem fillZero_ne_missing (v : Value) : fillZero v ≠ Value.missing := by
  unfold fillZero
  split <;> simp_all

theorem fillZero_of_ne (v : Value) (h : v ≠ Value.missing) : fillZero v = v := by
  unfold fillZero
  rw [if_neg h]

theorem fillRandom_ne_missing (v : Value) : fillRandom v ≠ Value.missing := by
  unfold fillRandom
  split <;> simp_all

theorem fillRandom_of_ne (v : Value) (h : v ≠ Value.missing) : fillRandom v = v := by
  unfold fillRandom
  rw [if_neg h]

theorem ratTrunc_intCast (k : ℤ) : ratTrunc ((k : ℤ) : ℚ) = k := by
  unfold ratTrunc
  rw [Rat.intCast_num, Rat.intCast_den]
  by_cases h : 0 ≤ k
  · rw [if_pos h]
    simp [Int.toNat_of_nonneg h]
  · rw [if_neg h]
    push_neg at h
    have h2 : 0 ≤ -k := by omega
    simp [Int.toNat_of_nonneg h2]

theorem toInt_intCast (k : ℤ) : toInt (Value.num ((k : ℤ) : ℚ)) = some k := by
  simp [toInt, ratTrunc_intCast]

theorem parseDate_getD_shape (v : Value) (h : (parseDate v).isSome = true) :
    (parseDate v).getD Value.missing = Value.missing ∨
      ∃ d : ℤ, (parseDate v).getD Value.missing = Value.date d := by
  cases v with
  | missing => left; rfl
  | num q => right; exact ⟨ratTrunc q, rfl⟩
  | date d => right; exact ⟨d, rfl⟩
  | str s =>
    right
    simp only [parseDate] at h ⊢
    by_cases hs : validDateString s = true
    · rw [if_pos hs]
      exact ⟨dateCode s, rfl⟩
    · rw [if_neg hs] at h
      simp at h

theorem parseDate_missing_or_date (v : Value)
    (h : v = Value.missing ∨ ∃ d : ℤ, v = Value.date d) :
    parseDate v = some v := by
  rcases h with h | ⟨d, h⟩ <;> subst h <;> rfl

/-- A generic identity-map lemma for lists. -/
theorem mapSelf {α : Type} {l : List α} {f : α → α} (h : ∀ x ∈ l, f x = x) : l.map f = l := by
  induction l with
  | nil => rfl
  | cons a as ih =>
    simp only [List.map_cons]
    rw [h a (by simp), ih (fun x hx => h x (by simp [hx]))]

theorem steps13_eq (t : Table) : step3 (step2 (step1 t)) = t.map f123 := by
  simp only [step1, step2, step3, List.map_map]
  rfl

theorem steps14_eq (t : Table) :
    steps14 t = (t.map f123).map
      (fun r => { r with cylinders := modeFillCyl (t.map f123) r }) := by
  simp only [steps14, steps13_eq, step4]

theorem cleaning_ok_of_guards (t : Table)
    (hg : (steps14 t).all rowGuards = true) :
    cleaning t = Except.ok ((steps14 t).map finalRow) := by
  rw [List.all_eq_true] at hg
  simp only [rowGuards, Bool.and_eq_true] at hg
  have g5 : (steps14 t).all (fun r => (parseDate r.date_posted).isSome) = true := by
    rw [List.all_eq_true]; exact fun r hr => (hg r hr).1.1.1
  have gO : (steps14 t).all (fun r => (toInt r.odometer).isSome) = true := by
    rw [List.all_eq_true]; exact fun r hr => (hg r hr).1.1.2
  have gC : (steps14 t).all (fun r => (toInt r.cylinders).isSome) = true := by
    rw [List.all_eq_true]; exact fun r hr => (hg r hr).1.2
  have gM : (steps14 t).all (fun r => (toInt r.model_year).isSome) = true := by
    rw [List.all_eq_true]; exact fun r hr => (hg r hr).2
  have tO : ((steps14 t).map dateFix).all (fun r => (toInt r.odometer).isSome)
      = (steps14 t).all (fun r => (toInt r.odometer).isSome) := by
    rw [List.all_map]; rfl
  have tC : (((steps14 t).map dateFix).map odoFix).all (fun r => (toInt r.cylinders).isSome)
      = (steps14 t).all (fun r => (toInt r.cylinders).isSome) := by
    rw [List.all_map, List.all_map]; rfl
  have tM : ((((steps14 t).map dateFix).map odoFix).map cylFix).all
        (fun r => (toInt r.model_year).isSome)
      = (steps14 t).all (fun r => (toInt r.model_year).isSome) := by
    rw [List.all_map, List.all_map, List.all_map]; rfl
  have e5 : step5 (steps14 t) = Except.ok ((steps14 t).map dateFix) := by
    rw [step5, if_pos g5]
  have eO : coerceOdometer ((steps14 t).map dateFix)
      = Except.ok (((steps14 t).map dateFix).map odoFix) := by
    rw [coerceOdometer, if_pos (tO.trans gO)]
  have eC : coerceCylinders (((steps14 t).map dateFix).map odoFix)
      = Except.ok ((((steps14 t).map dateFix).map odoFix).map cylFix) := by
    rw [coerceCylinders, if_pos (tC.trans gC)]
  have eM : coerceModelYear ((((steps14 t).map dateFix).map odoFix).map cylFix)
      = Except.ok (((((steps14 t).map dateFix).map odoFix).map cylFix).map myFix) := by
    rw [coerceModelYear, if_pos (tM.trans gM)]
  simp only [cleaning, e5, eO, eC, eM]
  simp only [List.map_map]
  rfl

theorem guards_of_cleaning_ok (t t2 : Table) (h : cleaning t = Except.ok t2) :
    (steps14 t).all rowGuards = true ∧ t2 = (steps14 t).map finalRow := by
  have tO : ((steps14 t).map dateFix).all (fun r => (toInt r.odometer).isSome)
      = (steps14 t).all (fun r => (toInt r.odometer).isSome) := by
    rw [List.all_map]; rfl
  have tC : (((steps14 t).map dateFix).map odoFix).all (fun r => (toInt r.cylinders).isSome)
      = (steps14 t).all (fun r => (toInt r.cylinders).isSome) := by
    rw [List.all_map, List.all_map]; rfl
  have tM : ((((steps14 t).map dateFix).map odoFix).map cylFix).all
        (fun r => (toInt r.model_year).isSome)
      = (steps14 t).all (fun r => (toInt r.model_year).isSome) := by
    rw [List.all_map, List.all_map, List.all_map]; rfl
  by_cases g5 : (steps14 t).all (fun r => (parseDate r.date_posted).isSome) = true
  · have e5 : step5 (steps14 t) = Except.ok ((steps14 t).map dateFix) := by
      rw [step5, if_pos g5]
    by_cases gO : (steps14 t).all (fun r => (toInt r.odometer).isSome) = true
    · have eO : coerceOdometer ((steps14 t).map dateFix)
          = Except.ok (((steps14 t).map dateFix).map odoFix) := by
        rw [coerceOdometer, if_pos (tO.trans gO)]
      by_cases gC : (steps14 t).all (fun r => (toInt r.cylinders).isSome) = true
      · have eC : coerceCylinders (((steps14 t).map dateFix).map odoFix)
            = Except.ok ((((steps14 t).map dateFix).map odoFix).map cylFix) := by
          rw [coerceCylinders, if_pos (tC.trans gC)]
        by_cases gM : (steps14 t).all (fun r => (toInt r.model_year).isSome) = true
        · have eM : coerceModelYear ((((steps14 t).map dateFix).map odoFix).map cylFix)
              = Except.ok (((((steps14 t).map dateFix).map odoFix).map cylFix).map myFix) := by
            rw [coerceModelYear, if_pos (tM.trans gM)]
          constructor
          · rw [List.all_eq_true]
            intro r hr
            simp only [rowGuards, Bool.and_eq_true]
            rw [List.all_eq_true] at g5 gO gC gM
            exact ⟨⟨⟨g5 r hr, gO r hr⟩, gC r hr⟩, gM r hr⟩
          · simp only [cleaning, e5, eO, eC, eM] at h
            have h2 := Except.ok.inj h
            rw [← h2]
            simp only [List.map_map]
            rfl
        · exfalso
          have eM : coerceModelYear ((((steps14 t).map dateFix).map odoFix).map cylFix)
              = Except.error CleanError.typeCoercionError := by
            rw [coerceModelYear, if_neg (fun hx => gM (tM.symm.trans hx))]
          simp only [cleaning, e5, eO, eC, eM] at h
          exact Except.noConfusion h
      · exfalso
        have eC : coerceCylinders (((steps14 t).map dateFix).map odoFix)
            = Except.error CleanError.typeCoercionError := by
          rw [coerceCylinders, if_neg (fun hx => gC (tC.symm.trans hx))]
        simp only [cleaning, e5, eO, eC] at h
        exact Except.noConfusion h
    · exfalso
      have eO : coerceOdometer ((steps14 t).map dateFix)
          = Except.error CleanError.typeCoercionError := by
        rw [coerceOdometer, if_neg (fun hx => gO (tO.symm.trans hx))]
      simp only [cleaning, e5, eO] at h
      exact Except.noConfusion h
  · exfalso
    have e5 : step5 (steps14 t) = Except.error CleanError.parseError := by
      rw [step5, if_neg g5]
    simp only [cleaning, e5] at h
    exact Except.noConfusion h

theorem cleaning_ok_eq (t t2 : Table) (h : cleaning t = Except.ok t2) :
    t2 = t.map (cleanRowIn t) := by
  obtain ⟨-, h2⟩ := guards_of_cleaning_ok t t2 h
  rw [h2, steps14_eq, List.map_map, List.map_map]
  rfl

theorem cleaning_ok_length (t t2 : Table) (h : cleaning t = Except.ok t2) :
    t2.length = t.length := by
  rw [cleaning_ok_eq t t2 h, List.length_map]

theorem model_ne_missing_of_ok (t t2 : Table) (h : cleaning t = Except.ok t2) :
    ∀ r ∈ t, r.model ≠ Value.missing := by
  intro r hr hm
  obtain ⟨hg, -⟩ := guards_of_cleaning_ok t t2 h
  rw [List.all_eq_true] at hg
  have hmem : { f123 r with cylinders := modeFillCyl (t.map f123) (f123 r) } ∈ steps14 t := by
    rw [steps14_eq]
    exact List.mem_map_of_mem _ (List.mem_map_of_mem f123 hr)
  have hgr := hg _ hmem
  simp only [rowGuards, Bool.and_eq_true] at hgr
  have hcy := hgr.1.2
  have hmod : (f123 r).model = Value.missing := hm
  have hfill : modeFillCyl (t.map f123) (f123 r) = Value.missing := by
    unfold modeFillCyl
    rw [if_pos hmod]
  rw [hfill] at hcy
  simp [toInt] at hcy

theorem cleanedRow_of_ok (t t2 : Table) (h : cleaning t = Except.ok t2) :
    ∀ r2 ∈ t2, CleanedRow r2 := by
  intro r2 hr2
  rw [cleaning_ok_eq t t2 h, List.mem_map] at hr2
  obtain ⟨r0, hr0, hEq⟩ := hr2
  obtain ⟨hg, -⟩ := guards_of_cleaning_ok t t2 h
  rw [List.all_eq_true] at hg
  have hmem : { f123 r0 with cylinders := modeFillCyl (t.map f123) (f123 r0) } ∈ steps14 t := by
    rw [steps14_eq]
    exact List.mem_map_of_mem _ (List.mem_map_of_mem f123 hr0)
  have hgr := hg _ hmem
  simp only [rowGuards, Bool.and_eq_true] at hgr
  rw [← hEq]
  refine ⟨replace4wd_ne_one _, replace4wd_ne_missing _, ⟨_, rfl⟩, ⟨_, rfl⟩, ⟨_, rfl⟩,
    fillRandom_ne_missing _, ?_, ?_⟩
  · exact parseDate_getD_shape _ hgr.1.1.1
  · exact model_ne_missing_of_ok t t2 h r0 hr0

theorem num_ne_missing (q : ℚ) : Value.num q ≠ Value.missing := by simp

theorem dateFix_self (r : Row)
    (h : r.date_posted = Value.missing ∨ ∃ d : ℤ, r.date_posted = Value.date d) :
    dateFix r = r := by
  unfold dateFix
  rw [parseDate_missing_or_date _ h]
  rfl

theorem odoFix_self (r : Row) (k : ℤ) (e : r.odometer = Value.num ((k : ℤ) : ℚ)) :
    odoFix r = r := by
  unfold odoFix
  rw [e, toInt_intCast]
  rw [show ((some k).getD 0 : ℤ) = k from rfl, ← e]

theorem cylFix_self (r : Row) (k : ℤ) (e : r.cylinders = Value.num ((k : ℤ) : ℚ)) :
    cylFix r = r := by
  unfold cylFix
  rw [e, toInt_intCast]
  rw [show ((some k).getD 0 : ℤ) = k from rfl, ← e]

theorem myFix_self (r : Row) (k : ℤ) (e : r.model_year = Value.num ((k : ℤ) : ℚ)) :
    myFix r = r := by
  unfold myFix
  rw [e, toInt_intCast]
  rw [show ((some k).getD 0 : ℤ) = k from rfl, ← e]

/-- A table whose rows all have the cleaned shape is a fixed point: running
cleaning on it succeeds and returns it unchanged. -/
theorem cleaned_fixed (t : Table) (h : ∀ r ∈ t, CleanedRow r) :
    cleaning t = Except.ok t := by
  have h1 : step1 t = t := by
    apply mapSelf
    intro r hr
    rw [replace4wd_of_ne _ (h r hr).1 (h r hr).2.1]
  have h2 : step2 (step1 t) = t := by
    rw [h1]
    apply mapSelf
    intro r hr
    obtain ⟨-, -, ⟨ko, eo⟩, ⟨kc, ec⟩, ⟨km, em⟩, -, -, -⟩ := h r hr
    rw [fillZero_of_ne _ (by rw [eo]; exact num_ne_missing _),
      fillZero_of_ne _ (by rw [ec]; exact num_ne_missing _),
      fillZero_of_ne _ (by rw [em]; exact num_ne_missing _)]
  have h3 : step3 (step2 (step1 t)) = t := by
    rw [h2]
    apply mapSelf
    intro r hr
    rw [fillRandom_of_ne _ (h r hr).2.2.2.2.2.1]
  have h4 : steps14 t = t := by
    unfold steps14
    rw [h3]
    apply mapSelf
    intro r hr
    obtain ⟨-, -, -, ⟨kc, ec⟩, -, -, -, hm⟩ := h r hr
    have : modeFillCyl t r = r.cylinders := by
      unfold modeFillCyl
      rw [if_neg hm, if_neg (by rw [ec]; exact num_ne_missing _)]
    rw [this]
  have hguards : t.all rowGuards = true := by
    rw [List.all_eq_true]
    intro r hr
    obtain ⟨-, -, ⟨ko, eo⟩, ⟨kc, ec⟩, ⟨km, em⟩, -, hd, -⟩ := h r hr
    simp only [rowGuards, Bool.and_eq_true]
    rw [parseDate_missing_or_date _ hd, eo, ec, em, toInt_intCast, toInt_intCast, toInt_intCast]
    simp
  have := cleaning_ok_of_guards t (by rw [h4]; exact hguards)
  rw [h4] at this
  rw [this]
  congr 1
  apply mapSelf
  intro r hr
  obtain ⟨-, -, ⟨ko, eo⟩, ⟨kc, ec⟩, ⟨km, em⟩, -, hd, -⟩ := h r hr
  unfold finalRow
  rw [dateFix_self r hd, odoFix_self r ko eo, cylFix_self r kc ec, myFix_self r km em]

theorem replace4wd_missing : replace4wd Value.missing = Value.str "No" := by
  simp [replace4wd]

theorem replace4wd_one : replace4wd (Value.num 1) = Value.str "Yes" := by
  simp [replace4wd]

theorem cleanRowIn_is_4wd (t : Table) (r0 : Row) :
    (cleanRowIn t r0).is_4wd = replace4wd r0.is_4wd := rfl

theorem cleanRowIn_paint_color (t : Table) (r0 : Row) :
    (cleanRowIn t r0).paint_color = fillRandom r0.paint_color := rfl

theorem cleanRowIn_model (t : Table) (r0 : Row) :
    (cleanRowIn t r0).model = r0.model := rfl

theorem cleanRowIn_odometer (t : Table) (r0 : Row) :
    (cleanRowIn t r0).odometer
      = Value.num (((toInt (fillZero r0.odometer)).getD 0 : ℤ) : ℚ) := rfl

theorem cleanRowIn_model_year (t : Table) (r0 : Row) :
    (cleanRowIn t r0).model_year
      = Value.num (((toInt (fillZero r0.model_year)).getD 0 : ℤ) : ℚ) := rfl

theorem cleanRowIn_cylinders (t : Table) (r0 : Row) :
    (cleanRowIn t r0).cylinders
      = Value.num (((toInt (modeFillCyl (t.map f123) (f123 r0))).getD 0 : ℤ) : ℚ) := rfl

theorem cleanRowIn_date_posted (t : Table) (r0 : Row) :
    (cleanRowIn t r0).date_posted = (parseDate r0.date_posted).getD Value.missing := rfl

theorem modeFillCyl_no_fill (u : Table) (r : Row) (hm : r.model ≠ Value.missing)
    (hc : r.cylinders ≠ Value.missing) : modeFillCyl u r = r.cylinders := by
  unfold modeFillCyl
  rw [if_neg hm, if_neg hc]

theorem toInt_fillZero_isSome (v : Value) (hv : numOrMissing v = true) :
    (toInt (fillZero v)).isSome = true := by
  cases v with
  | missing => rfl
  | num q => simp [fillZero, toInt]
  | str s => simp [numOrMissing] at hv
  | date d => simp [numOrMissing] at hv

/-! ### C6: idempotence of cleaning on its own output -/

/-- C6: cleaning is idempotent on its own output: whenever cleaning
succeeds on a raw table, running cleaning again on the returned cleaned
table succeeds and changes no values. -/
theorem cleaning_idempotent (t t2 : Table) (h : cleaning t = Except.ok t2) :
    cleaning t2 = Except.ok t2 :=
  cleaned_fixed t2 (cleanedRow_of_ok t t2 h)

/-! ### C1: post-cleaning invariants -/

/-- C1 (amended): after a successful cleaning run no value of odometer,
cylinders, model_year or paint_color is missing; and provided every raw
is_4wd value is the numeric marker 1 or missing, every cleaned is_4wd
value is the string Yes or the string No. -/
theorem cleaning_invariants (t t2 : Table) (h : cleaning t = Except.ok t2) :
    (∀ r2 ∈ t2, r2.odometer ≠ Value.missing ∧ r2.cylinders ≠ Value.missing ∧
      r2.model_year ≠ Value.missing ∧ r2.paint_color ≠ Value.missing) ∧
    ((∀ r ∈ t, r.is_4wd = Value.num 1 ∨ r.is_4wd = Value.missing) →
      ∀ r2 ∈ t2, r2.is_4wd = Value.str "Yes" ∨ r2.is_4wd = Value.str "No") := by
  constructor
  · intro r2 hr2
    obtain ⟨-, -, ⟨ko, eo⟩, ⟨kc, ec⟩, ⟨km, em⟩, hp, -, -⟩ := cleanedRow_of_ok t t2 h r2 hr2
    refine ⟨?_, ?_, ?_, hp⟩
    · rw [eo]; exact num_ne_missing _
    · rw [ec]; exact num_ne_missing _
    · rw [em]; exact num_ne_missing _
  · intro hraw r2 hr2
    rw [cleaning_ok_eq t t2 h, List.mem_map] at hr2
    obtain ⟨r0, hr0, hEq⟩ := hr2
    rw [← hEq, cleanRowIn_is_4wd]
    rcases hraw r0 hr0 with h1 | h1 <;> rw [h1]
    · left; exact replace4wd_one
    · right; exact replace4wd_missing

/-! ### C2: the groupby-mode re-fill as a no-op -/

/-- C2 (amended): provided every row's model key is present, the
groupby-mode re-fill of cylinders (step 4) is a no-op after steps 1-3,
because step 2 has already replaced every missing cylinders value with 0. -/
theorem step4_noop (t : Table) (hm : ∀ r ∈ t, r.model ≠ Value.missing) :
    step4 (step3 (step2 (step1 t))) = step3 (step2 (step1 t)) := by
  rw [steps13_eq]
  unfold step4
  apply mapSelf
  intro r hr
  rw [List.mem_map] at hr
  obtain ⟨r0, hr0, hEq⟩ := hr
  have h1 : r.model ≠ Value.missing := by rw [← hEq]; exact hm r0 hr0
  have h2 : r.cylinders ≠ Value.missing := by rw [← hEq]; exact fillZero_ne_missing _
  rw [modeFillCyl_no_fill _ _ h1 h2]

/-! ### C3: cleaning mutates its argument in place -/

/-- C3 (amended): cleaning is not free of side effects on its argument:
each column assignment writes into the caller's table, so after a
successful call the argument's final state is the cleaned table that is
returned, not the unchanged raw input. -/
theorem cleaningArgAfter_eq_of_ok (t t2 : Table) (h : cleaning t = Except.ok t2) :
    cleaningArgAfter t = t2 := by
  unfold cleaning at h
  unfold cleaningArgAfter
  cases e5 : step5 (steps14 t) with
  | error e => simp only [e5] at h; exact Except.noConfusion h
  | ok t5 =>
    simp only [e5] at h ⊢
    cases eO : coerceOdometer t5 with
    | error e => simp only [eO] at h; exact Except.noConfusion h
    | ok t6 =>
      simp only [eO] at h ⊢
      cases eC : coerceCylinders t6 with
      | error e => simp only [eC] at h; exact Except.noConfusion h
      | ok t7 =>
        simp only [eC] at h ⊢
        cases eM : coerceModelYear t7 with
        | error e => simp only [eM] at h; exact Except.noConfusion h
        | ok t8 =>
          simp only [eM] at h ⊢
          exact Except.ok.inj h

/-! ### C4: an unparseable date aborts the whole load -/

/-- C4: a table containing at least one unparseable date_posted value makes
cleaning fail with the date-parse CleaningError: no table is returned, with
no partial output and no row skipping. -/
theorem cleaning_bad_date_fails (t : Table)
    (h : ∃ r ∈ t, parseDate r.date_posted = none) :
    cleaning t = Except.error CleanError.parseError := by
  obtain ⟨r, hr, hbad⟩ := h
  have hmem : { f123 r with cylinders := modeFillCyl (t.map f123) (f123 r) } ∈ steps14 t := by
    rw [steps14_eq]
    exact List.mem_map_of_mem _ (List.mem_map_of_mem f123 hr)
  have g5 : ¬ (steps14 t).all (fun r => (parseDate r.date_posted).isSome) = true := by
    rw [List.all_eq_true]
    intro hall
    have hx := hall _ hmem
    have h2 : (parseDate r.date_posted).isSome = true := hx
    rw [hbad] at h2
    simp at h2
  have e5 : step5 (steps14 t) = Except.error CleanError.parseError := by
    rw [step5, if_neg g5]
  simp only [cleaning, e5]

theorem get_map_row (l : Table) (f : Row → Row) (i : ℕ) (h1 : i < (l.map f).length)
    (h2 : i < l.length) : (l.map f).get ⟨i, h1⟩ = f (l.get ⟨i, h2⟩) := by
  simp [List.getElem_map]

theorem toInt_num (q : ℚ) : toInt (Value.num q) = some (ratTrunc q) := rfl

theorem steps14_all_date (t : Table) :
    (steps14 t).all (fun r => (parseDate r.date_posted).isSome)
      = t.all (fun r => (parseDate r.date_posted).isSome) := by
  rw [steps14_eq, List.all_map, List.all_map]
  rfl

theorem exists_none_of_not_all (u : Table) (f : Row → Option ℤ)
    (h : ¬ u.all (fun r => (f r).isSome) = true) : ∃ r ∈ u, f r = none := by
  rw [List.all_eq_true] at h
  push_neg at h
  obtain ⟨r, hr, hf⟩ := h
  refine ⟨r, hr, ?_⟩
  cases hfr : f r with
  | none => rfl
  | some k => rw [hfr] at hf; simp at hf

/-! ### C5: when the coercion error is raised -/

/-- C5 (amended): cleaning fails with a TypeCoercionError exactly when
every date_posted value parses and, after the fill steps 1-4, some value
of odometer, cylinders or model_year cannot be represented as an integer;
when a date is also unparseable, the date error is raised instead. -/
theorem cleaning_coercion_error_iff (t : Table) :
    cleaning t = Except.error CleanError.typeCoercionError ↔
      ((∀ r ∈ t, (parseDate r.date_posted).isSome = true) ∧
       ∃ r4 ∈ steps14 t, (toInt r4.odometer = none ∨ toInt r4.cylinders = none ∨
         toInt r4.model_year = none)) := by
  have tO : ((steps14 t).map dateFix).all (fun r => (toInt r.odometer).isSome)
      = (steps14 t).all (fun r => (toInt r.odometer).isSome) := by
    rw [List.all_map]; rfl
  have tC : (((steps14 t).map dateFix).map odoFix).all (fun r => (toInt r.cylinders).isSome)
      = (steps14 t).all (fun r => (toInt r.cylinders).isSome) := by
    rw [List.all_map, List.all_map]; rfl
  have tM : ((((steps14 t).map dateFix).map odoFix).map cylFix).all
        (fun r => (toInt r.model_year).isSome)
      = (steps14 t).all (fun r => (toInt r.model_year).isSome) := by
    rw [List.all_map, List.all_map, List.all_map]; rfl
  by_cases g5 : (steps14 t).all (fun r => (parseDate r.date_posted).isSome) = true
  · have e5 : step5 (steps14 t) = Except.ok ((steps14 t).map dateFix) := by
      rw [step5, if_pos g5]
    have hdates : ∀ r ∈ t, (parseDate r.date_posted).isSome = true := by
      rw [← List.all_eq_true, ← steps14_all_date]
      exact g5
    by_cases gO : (steps14 t).all (fun r => (toInt r.odometer).isSome) = true
    · have eO : coerceOdometer ((steps14 t).map dateFix)
          = Except.ok (((steps14 t).map dateFix).map odoFix) := by
        rw [coerceOdometer, if_pos (tO.trans gO)]
      by_cases gC : (steps14 t).all (fun r => (toInt r.cylinders).isSome) = true
      · have eC : coerceCylinders (((steps14 t).map dateFix).map odoFix)
            = Except.ok ((((steps14 t).map dateFix).map odoFix).map cylFix) := by
          rw [coerceCylinders, if_pos (tC.trans gC)]
        by_cases gM : (steps14 t).all (fun r => (toInt r.model_year).isSome) = true
        · have eM : coerceModelYear ((((steps14 t).map dateFix).map odoFix).map cylFix)
              = Except.ok (((((steps14 t).map dateFix).map odoFix).map cylFix).map myFix) := by
            rw [coerceModelYear, if_pos (tM.trans gM)]
          have hok : cleaning t
              = Except.ok (((((steps14 t).map dateFix).map odoFix).map cylFix).map myFix) := by
            simp only [cleaning, e5, eO, eC, eM]
          rw [hok]
          constructor
          · intro hEq; exact Except.noConfusion hEq
          · rintro ⟨-, r4, hr4, hbad⟩
            exfalso
            rw [List.all_eq_true] at gO gC gM
            rcases hbad with hb | hb | hb
            · have := gO r4 hr4; rw [hb] at this; simp at this
            · have := gC r4 hr4; rw [hb] at this; simp at this
            · have := gM r4 hr4; rw [hb] at this; simp at this
        · have eM : coerceModelYear ((((steps14 t).map dateFix).map odoFix).map cylFix)
              = Except.error CleanError.typeCoercionError := by
            rw [coerceModelYear, if_neg (fun hx => gM (tM.symm.trans hx))]
          have herr : cleaning t = Except.error CleanError.typeCoercionError := by
            simp only [cleaning, e5, eO, eC, eM]
          rw [herr]
          simp only [true_iff, iff_true]
          refine ⟨hdates, ?_⟩
          obtain ⟨r4, hr4, hb⟩ := exists_none_of_not_all _ (fun r => toInt r.model_year) gM
          exact ⟨r4, hr4, Or.inr (Or.inr hb)⟩
      · have eC : coerceCylinders (((steps14 t).map dateFix).map odoFix)
            = Except.error CleanError.typeCoercionError := by
          rw [coerceCylinders, if_neg (fun hx => gC (tC.symm.trans hx))]
        have herr : cleaning t = Except.error CleanError.typeCoercionError := by
          simp only [cleaning, e5, eO, eC]
        rw [herr]
        simp only [true_iff, iff_true]
        refine ⟨hdates, ?_⟩
        obtain ⟨r4, hr4, hb⟩ := exists_none_of_not_all _ (fun r => toInt r.cylinders) gC
        exact ⟨r4, hr4, Or.inr (Or.inl hb)⟩
    · have eO : coerceOdometer ((steps14 t).map dateFix)
          = Except.error CleanError.typeCoercionError := by
        rw [coerceOdometer, if_neg (fun hx => gO (tO.symm.trans hx))]
      have herr : cleaning t = Except.error CleanError.typeCoercionError := by
        simp only [cleaning, e5, eO]
      rw [herr]
      simp only [true_iff, iff_true]
      refine ⟨hdates, ?_⟩
      obtain ⟨r4, hr4, hb⟩ := exists_none_of_not_all _ (fun r => toInt r.odometer) gO
      exact ⟨r4, hr4, Or.inl hb⟩
  · have e5 : step5 (steps14 t) = Except.error CleanError.parseError := by
      rw [step5, if_neg g5]
    have herr : cleaning t = Except.error CleanError.parseError := by
      simp only [cleaning, e5]
    rw [herr]
    constructor
    · intro hEq
      exact absurd (Except.error.inj hEq) (by simp)
    · rintro ⟨hdates, -⟩
      exfalso
      apply g5
      rw [steps14_all_date, List.all_eq_true]
      exact hdates

/-! ### C7: the all-missing row and the numeric marker -/

/-- C7 (amended): on a table where cleaning succeeds, a row whose is_4wd,
odometer, cylinders, model_year and paint_color are all missing comes out
as is_4wd No, odometer 0, cylinders 0, model_year 0, paint_color random;
and a row whose is_4wd is the numeric marker 1 comes out with is_4wd Yes.
On a row whose model key is also missing cleaning fails instead, so the
success hypothesis is required. -/
theorem cleaning_allMissing_row (t t2 : Table) (h : cleaning t = Except.ok t2) :
    (∀ i (hi : i < t.length) (hi2 : i < t2.length),
      (t.get ⟨i, hi⟩).is_4wd = Value.missing → (t.get ⟨i, hi⟩).odometer = Value.missing →
      (t.get ⟨i, hi⟩).cylinders = Value.missing → (t.get ⟨i, hi⟩).model_year = Value.missing →
      (t.get ⟨i, hi⟩).paint_color = Value.missing →
      ((t2.get ⟨i, hi2⟩).is_4wd = Value.str "No" ∧
       (t2.get ⟨i, hi2⟩).odometer = Value.num 0 ∧
       (t2.get ⟨i, hi2⟩).cylinders = Value.num 0 ∧
       (t2.get ⟨i, hi2⟩).model_year = Value.num 0 ∧
       (t2.get ⟨i, hi2⟩).paint_color = Value.str "random")) ∧
    (∀ i (hi : i < t.length) (hi2 : i < t2.length),
      (t.get ⟨i, hi⟩).is_4wd = Value.num 1 → (t2.get ⟨i, hi2⟩).is_4wd = Value.str "Yes") := by
  have hmodel := model_ne_missing_of_ok t t2 h
  have hEq := cleaning_ok_eq t t2 h
  subst hEq
  constructor
  · intro i hi hi2 h1 h2 h3 h4 h5
    have hget : (t.map (cleanRowIn t)).get ⟨i, hi2⟩ = cleanRowIn t (t.get ⟨i, hi⟩) :=
      get_map_row t _ i hi2 hi
    set r0 := t.get ⟨i, hi⟩ with hr0
    have hr0mem : r0 ∈ t := List.get_mem t i hi
    rw [hget]
    refine ⟨?_, ?_, ?_, ?_, ?_⟩
    · rw [cleanRowIn_is_4wd, h1, replace4wd_missing]
    · rw [cleanRowIn_odometer, h2]
      norm_num [fillZero, toInt, ratTrunc]
    · rw [cleanRowIn_cylinders]
      have hmf : modeFillCyl (t.map f123) (f123 r0) = Value.num 0 := by
        have hne : (f123 r0).model ≠ Value.missing := hmodel r0 hr0mem
        have hcy : (f123 r0).cylinders ≠ Value.missing := fillZero_ne_missing _
        rw [modeFillCyl_no_fill _ _ hne hcy]
        show fillZero r0.cylinders = Value.num 0
        rw [h3]
        rfl
      rw [hmf]
      norm_num [toInt, ratTrunc]
    · rw [cleanRowIn_model_year, h4]
      norm_num [fillZero, toInt, ratTrunc]
    · rw [cleanRowIn_paint_color, h5]
      rfl
  · intro i hi hi2 h1
    have hget : (t.map (cleanRowIn t)).get ⟨i, hi2⟩ = cleanRowIn t (t.get ⟨i, hi⟩) :=
      get_map_row t _ i hi2 hi
    rw [hget, cleanRowIn_is_4wd, h1, replace4wd_one]

/-! ### C10: fractional numeric values truncate instead of failing -/

/-- C10 (amended): on a table whose odometer, cylinders and model_year
values are all numeric (possibly fractional) or missing, whose date_posted
values all parse and whose model keys are all present, cleaning succeeds
with no coercion error, and every numeric value q of those columns is
stored as its truncation toward zero. -/
theorem cleaning_fractional (t : Table)
    (hmod : ∀ r ∈ t, r.model ≠ Value.missing)
    (hdate : ∀ r ∈ t, (parseDate r.date_posted).isSome = true)
    (ho : ∀ r ∈ t, numOrMissing r.odometer = true)
    (hc : ∀ r ∈ t, numOrMissing r.cylinders = true)
    (hmy : ∀ r ∈ t, numOrMissing r.model_year = true) :
    cleaning t = Except.ok (t.map (cleanRowIn t)) ∧
    ∀ i (hi : i < t.length) (hi2 : i < (t.map (cleanRowIn t)).length) (q : ℚ),
      ((t.get ⟨i, hi⟩).odometer = Value.num q →
        ((t.map (cleanRowIn t)).get ⟨i, hi2⟩).odometer = Value.num ((ratTrunc q : ℤ) : ℚ)) ∧
      ((t.get ⟨i, hi⟩).cylinders = Value.num q →
        ((t.map (cleanRowIn t)).get ⟨i, hi2⟩).cylinders = Value.num ((ratTrunc q : ℤ) : ℚ)) ∧
      ((t.get ⟨i, hi⟩).model_year = Value.num q →
        ((t.map (cleanRowIn t)).get ⟨i, hi2⟩).model_year = Value.num ((ratTrunc q : ℤ) : ℚ)) := by
  have hguards : (steps14 t).all rowGuards = true := by
    rw [List.all_eq_true]
    intro r4 hr4
    rw [steps14_eq, List.mem_map] at hr4
    obtain ⟨r3, hr3, hEq3⟩ := hr4
    rw [List.mem_map] at hr3
    obtain ⟨r0, hr0, hEq0⟩ := hr3
    subst hEq0
    subst hEq3
    simp only [rowGuards, Bool.and_eq_true]
    have hmf : modeFillCyl (t.map f123) (f123 r0) = fillZero r0.cylinders := by
      have hm2 : (f123 r0).model ≠ Value.missing := hmod r0 hr0
      have hc2 : (f123 r0).cylinders ≠ Value.missing := fillZero_ne_missing r0.cylinders
      rw [modeFillCyl_no_fill _ _ hm2 hc2]
      rfl
    refine ⟨⟨⟨?_, ?_⟩, ?_⟩, ?_⟩
    · exact hdate r0 hr0
    · exact toInt_fillZero_isSome _ (ho r0 hr0)
    · show (toInt (modeFillCyl (t.map f123) (f123 r0))).isSome = true
      rw [hmf]
      exact toInt_fillZero_isSome _ (hc r0 hr0)
    · exact toInt_fillZero_isSome _ (hmy r0 hr0)
  have hok : cleaning t = Except.ok (t.map (cleanRowIn t)) := by
    have := cleaning_ok_of_guards t hguards
    rw [this, steps14_eq, List.map_map, List.map_map]
    rfl
  refine ⟨hok, ?_⟩
  intro i hi hi2 q
  have hget : (t.map (cleanRowIn t)).get ⟨i, hi2⟩ = cleanRowIn t (t.get ⟨i, hi⟩) :=
    get_map_row t _ i hi2 hi
  set r0 := t.get ⟨i, hi⟩ with hr0def
  have hr0mem : r0 ∈ t := List.get_mem t i hi
  refine ⟨?_, ?_, ?_⟩
  · intro he
    rw [hget, cleanRowIn_odometer, fillZero_of_ne _ (by rw [he]; exact num_ne_missing _),
      he, toInt_num]
    rfl
  · intro he
    have hm2 : (f123 r0).model ≠ Value.missing := hmod r0 hr0mem
    have hc2 : (f123 r0).cylinders ≠ Value.missing := fillZero_ne_missing r0.cylinders
    rw [hget, cleanRowIn_cylinders, modeFillCyl_no_fill _ _ hm2 hc2]
    rw [show (f123 r0).cylinders = fillZero r0.cylinders from rfl,
      fillZero_of_ne _ (by rw [he]; exact num_ne_missing _), he, toInt_num]
    rfl
  · intro he
    rw [hget, cleanRowIn_model_year, fillZero_of_ne _ (by rw [he]; exact num_ne_missing _),
      he, toInt_num]
    rfl

theorem mem_groupKeys (l : List Value) (k : Value) :
    k ∈ groupKeys l ↔ (k ≠ Value.missing ∧ k ∈ l) := by
  unfold groupKeys
  rw [List.Perm.mem_iff (List.perm_insertionSort _ _), List.mem_dedup, List.mem_filter]
  simp [bne_iff_ne, and_comm]

theorem groupKeys_nodup (l : List Value) : (groupKeys l).Nodup := by
  unfold groupKeys
  exact (List.Perm.nodup_iff (List.perm_insertionSort _ _)).mpr (List.nodup_dedup _)

theorem filterMap_numOf (g : List Row) (hg : ∀ r ∈ g, isNum r.price = true) :
    (g.map Row.price).filterMap numOf = g.map priceQ := by
  induction g with
  | nil => rfl
  | cons a as ih =>
    have ha := hg a (by simp)
    cases hv : a.price with
    | num q =>
      simp only [List.map_cons, List.filterMap_cons, hv, numOf]
      rw [ih (fun r hr => hg r (by simp [hr]))]
      have hpq : priceQ a = q := by unfold priceQ; rw [hv]
      rw [hpq]
    | missing => rw [hv] at ha; simp [isNum] at ha
    | str s => rw [hv] at ha; simp [isNum] at ha
    | date d => rw [hv] at ha; simp [isNum] at ha

theorem meanValue_eq (g : List Row) (hg : ∀ r ∈ g, isNum r.price = true) (hne : g ≠ []) :
    meanValue (g.map Row.price) = Value.num ((g.map priceQ).sum / ((g.length : ℕ) : ℚ)) := by
  simp only [meanValue, filterMap_numOf g hg]
  rw [if_neg (by simp [hne])]
  rw [List.length_map]

/-! ### C8: the condition-mean bar chart -/

/-- C8: on a cleaned table with numeric prices, plot_condition_mean yields
exactly one bar per distinct condition value present in the table (a
condition with zero rows never appears), each bar holding the arithmetic
mean of price over the rows of that condition, in group-key order as
produced by grouping; instantiated at two rows of condition good priced
100 and 200 this gives the single bar good with value 150. -/
theorem condition_mean_bars (t : Table) (hp : ∀ r ∈ t, isNum r.price = true) :
    (plot_condition_mean t).keys.Nodup ∧
    (∀ k, k ∈ (plot_condition_mean t).keys ↔
      (k ≠ Value.missing ∧ ∃ r ∈ t, r.condition = k)) ∧
    (plot_condition_mean t).values = (plot_condition_mean t).keys.map (fun k =>
      Value.num (((condRows t k).map priceQ).sum / (((condRows t k).length : ℕ) : ℚ))) ∧
    (plot_condition_mean t).horizontal = false := by
  refine ⟨groupKeys_nodup _, ?_, ?_, rfl⟩
  · intro k
    rw [show (plot_condition_mean t).keys = groupKeys (t.map Row.condition) from rfl,
      mem_groupKeys, List.mem_map]
  · rw [show (plot_condition_mean t).values
        = (groupKeys (t.map Row.condition)).map
            (fun k => meanValue ((condRows t k).map Row.price)) from rfl,
      show (plot_condition_mean t).keys = groupKeys (t.map Row.condition) from rfl]
    apply List.map_congr_left
    intro k hk
    rw [mem_groupKeys] at hk
    obtain ⟨hkm, hkmem⟩ := hk
    rw [List.mem_map] at hkmem
    obtain ⟨r, hr, hrk⟩ := hkmem
    have hsub : ∀ x ∈ condRows t k, isNum x.price = true :=
      fun x hx => hp x (List.mem_of_mem_filter hx)
    have hne : condRows t k ≠ [] := by
      intro hempty
      have hmem : r ∈ condRows t k := by
        unfold condRows
        rw [List.mem_filter]
        exact ⟨hr, by simp [hrk]⟩
      rw [hempty] at hmem
      simp at hmem
    exact meanValue_eq _ hsub hne

/-! ### C9: the builders on empty and single-row tables -/

/-- C9: all three chart builders are total on empty and single-row cleaned
tables: plot_type_mean and plot_condition_mean on an empty table yield
zero bars, plot_scatter yields zero points on an empty table and one point
per row on a single-row table, a single row with a numeric price yields
one bar whose value is that price (the mean of one value), and a single
row whose group key is missing simply has no group. -/
theorem builders_safe :
    plot_type_mean ([] : Table) = { keys := [], values := [], horizontal := true } ∧
    plot_condition_mean ([] : Table) = { keys := [], values := [], horizontal := false } ∧
    (plot_scatter ([] : Table)).points = [] ∧
    (∀ r : Row, (plot_scatter [r]).points.length = 1) ∧
    (∀ r : Row, r.type = Value.missing →
      plot_type_mean [r] = { keys := [], values := [], horizontal := true }) ∧
    (∀ (r : Row) (q : ℚ), r.price = Value.num q → r.type ≠ Value.missing →
      plot_type_mean [r] = { keys := [r.type], values := [Value.num q], horizontal := true }) ∧
    (∀ (r : Row) (q : ℚ), r.price = Value.num q → r.condition ≠ Value.missing →
      plot_condition_mean [r]
        = { keys := [r.condition], values := [Value.num q], horizontal := false }) := by
  refine ⟨rfl, rfl, rfl, fun r => rfl, ?_, ?_, ?_⟩
  · intro r hm
    simp [plot_type_mean, groupKeys, hm]
  · intro r q hq hm
    have hb : (r.type != Value.missing) = true := by simp [bne_iff_ne, hm]
    have hkeys : groupKeys [r.type] = [r.type] := by
      simp [groupKeys, List.filter, hb, List.insertionSort, List.orderedInsert]
    have hrows : typeRows [r] r.type = [r] := by
      simp [typeRows, List.filter]
    have hmean : meanValue [r.price] = Value.num q := by
      simp [meanValue, numOf, hq]
    simp [plot_type_mean, hkeys, hrows, hmean]
  · intro r q hq hm
    have hb : (r.condition != Value.missing) = true := by simp [bne_iff_ne, hm]
    have hkeys : groupKeys [r.condition] = [r.condition] := by
      simp [groupKeys, List.filter, hb, List.insertionSort, List.orderedInsert]
    have hrows : condRows [r] r.condition = [r] := by
      simp [condRows, List.filter]
    have hmean : meanValue [r.price] = Value.num q := by
      simp [meanValue, numOf, hq]
    simp [plot_condition_mean, hkeys, hrows, hmean]

/-! ### Counterexamples and concrete instantiations -/

/-- C1 counterexample: the claim fails as stated over all raw tables: a raw
is_4wd value that is neither the marker 1 nor missing (here the number 0)
survives cleaning unchanged, so the cleaned table has an is_4wd value that
is neither Yes nor No. -/
theorem cleaning_is4wd_escape_cex :
    cleaning tblC1 = Except.ok tblC1 ∧
    ∃ r2 ∈ tblC1, r2.is_4wd ≠ Value.str "Yes" ∧ r2.is_4wd ≠ Value.str "No" := by decide

/-- C1 witness: the amended invariant theorem applied to a concrete table
whose raw is_4wd values are the marker 1 and missing. -/
theorem cleaning_invariants_witness :
    cleaning tblC1w = Except.ok tblC1wClean ∧
    ((∀ r2 ∈ tblC1wClean, r2.odometer ≠ Value.missing ∧ r2.cylinders ≠ Value.missing ∧
       r2.model_year ≠ Value.missing ∧ r2.paint_color ≠ Value.missing) ∧
     ((∀ r ∈ tblC1w, r.is_4wd = Value.num 1 ∨ r.is_4wd = Value.missing) →
       ∀ r2 ∈ tblC1wClean, r2.is_4wd = Value.str "Yes" ∨ r2.is_4wd = Value.str "No")) :=
  ⟨by decide, cleaning_invariants tblC1w tblC1wClean (by decide)⟩

/-- C2 counterexample: on a row whose model key is missing, the groupby
transform writes a missing cylinders value (the row belongs to no group),
so step 4 is not a no-op after steps 1-3. -/
theorem step4_noop_cex :
    step4 (step3 (step2 (step1 tblC2))) ≠ step3 (step2 (step1 tblC2)) := by decide

/-- C2 witness: the amended no-op theorem applied to the same row with its
model key present. -/
theorem step4_noop_witness :
    (∀ r ∈ tblC2w, r.model ≠ Value.missing) ∧
    step4 (step3 (step2 (step1 tblC2w))) = step3 (step2 (step1 tblC2w)) :=
  ⟨by decide, step4_noop tblC2w (by decide)⟩

/-- C3 counterexample: cleaning succeeds on this table yet its argument is
left holding the cleaned table, not the raw input: the call is not free of
side effects on the argument. -/
theorem cleaning_mutates_cex :
    cleaning tblC3 = Except.ok tblC3clean ∧ cleaningArgAfter tblC3 ≠ tblC3 := by decide

/-- C3 witness: the amended theorem applied to the concrete table: after
the successful call the argument equals the returned cleaned table. -/
theorem cleaningArgAfter_witness :
    cleaning tblC3 = Except.ok tblC3clean ∧ cleaningArgAfter tblC3 = tblC3clean :=
  ⟨by decide, cleaningArgAfter_eq_of_ok tblC3 tblC3clean (by decide)⟩

/-- C4 witness: the abort theorem applied to a table whose date_posted is
the literal not-a-date. -/
theorem cleaning_bad_date_witness :
    (∃ r ∈ tblC4, parseDate r.date_posted = none) ∧
    cleaning tblC4 = Except.error CleanError.parseError :=
  ⟨by decide, cleaning_bad_date_fails tblC4 (by decide)⟩

/-- C5 counterexample: the claim's if-and-only-if fails as stated: this
table has a cylinders value that cannot be represented as an integer after
steps 1-4, yet cleaning fails with the date-parse error (raised first),
not with a TypeCoercionError. -/
theorem coercion_error_iff_cex :
    (∃ r4 ∈ steps14 tblC5, toInt r4.odometer = none ∨ toInt r4.cylinders = none ∨
      toInt r4.model_year = none) ∧
    cleaning tblC5 ≠ Except.error CleanError.typeCoercionError ∧
    cleaning tblC5 = Except.error CleanError.parseError := by decide

/-- C6 witness: idempotence at a concrete raw table with several fills. -/
theorem cleaning_idempotent_witness :
    cleaning tblC6 = Except.ok tblC6clean ∧ cleaning tblC6clean = Except.ok tblC6clean :=
  ⟨by decide, cleaning_idempotent tblC6 tblC6clean (by decide)⟩

/-- C7 counterexample: a row with is_4wd, odometer, cylinders, model_year
and paint_color all missing does not always come out with the default
values: when its model key is also missing, cleaning fails and produces no
row at all. -/
theorem allMissing_row_cex :
    (∀ r ∈ tblC7, r.is_4wd = Value.missing ∧ r.odometer = Value.missing ∧
      r.cylinders = Value.missing ∧ r.model_year = Value.missing ∧
      r.paint_color = Value.missing) ∧
    cleaning tblC7 = Except.error CleanError.typeCoercionError := by decide

/-- C7 witness: the amended theorem at a concrete table: the all-missing
row (model present) becomes No, 0, 0, 0, random, and the row with the
numeric marker 1 becomes Yes. -/
theorem allMissing_row_witness :
    cleaning tblC7w = Except.ok tblC7wClean ∧
    ((tblC7wClean.get ⟨0, by decide⟩).is_4wd = Value.str "No" ∧
     (tblC7wClean.get ⟨0, by decide⟩).odometer = Value.num 0 ∧
     (tblC7wClean.get ⟨0, by decide⟩).cylinders = Value.num 0 ∧
     (tblC7wClean.get ⟨0, by decide⟩).model_year = Value.num 0 ∧
     (tblC7wClean.get ⟨0, by decide⟩).paint_color = Value.str "random") ∧
    (tblC7wClean.get ⟨1, by decide⟩).is_4wd = Value.str "Yes" :=
  ⟨by decide,
   (cleaning_allMissing_row tblC7w tblC7wClean (by decide)).1 0 (by decide) (by decide)
     (by decide) (by decide) (by decide) (by decide) (by decide),
   (cleaning_allMissing_row tblC7w tblC7wClean (by decide)).2 1 (by decide) (by decide)
     (by decide)⟩

/-- The spec's concrete bar example: two rows of condition good priced 100
and 200 give exactly the single bar good with value 150. -/
theorem tblC8_good_bar_150 :
    plot_condition_mean tblC8
      = { keys := [Value.str "good"], values := [Value.num 150], horizontal := false } := by
  have hkeys : groupKeys (tblC8.map Row.condition) = [Value.str "good"] := by decide
  have hrows : condRows tblC8 (Value.str "good") = tblC8 := by decide
  have hmean : meanValue (tblC8.map Row.price) = Value.num 150 := by
    have hfm : (tblC8.map Row.price).filterMap numOf = [(100 : ℚ), 200] := by decide
    simp only [meanValue, hfm]
    norm_num
  simp only [plot_condition_mean, hkeys, List.map_cons, List.map_nil, hrows, hmean]

/-- C8 witness: the bar theorem applied to the two-row good table, together
with the evaluated single bar good priced 150. -/
theorem condition_mean_bars_witness :
    (∀ r ∈ tblC8, isNum r.price = true) ∧
    ((plot_condition_mean tblC8).keys.Nodup ∧
     (∀ k, k ∈ (plot_condition_mean tblC8).keys ↔
       (k ≠ Value.missing ∧ ∃ r ∈ tblC8, r.condition = k)) ∧
     (plot_condition_mean tblC8).values = (plot_condition_mean tblC8).keys.map (fun k =>
       Value.num (((condRows tblC8 k).map priceQ).sum /
         (((condRows tblC8 k).length : ℕ) : ℚ))) ∧
     (plot_condition_mean tblC8).horizontal = false) ∧
    plot_condition_mean tblC8
      = { keys := [Value.str "good"], values := [Value.num 150], horizontal := false } :=
  ⟨by decide, condition_mean_bars tblC8 (by decide), tblC8_good_bar_150⟩

/-- C9 witness: the builder-safety theorem instantiated at a concrete
single row. -/
theorem builders_safe_witness :
    (plot_scatter [rowC9]).points.length = 1 ∧
    plot_type_mean [rowC9]
      = { keys := [rowC9.type], values := [Value.num 100], horizontal := true } ∧
    plot_condition_mean [rowC9]
      = { keys := [rowC9.condition], values := [Value.num 100], horizontal := false } :=
  ⟨builders_safe.2.2.2.1 rowC9,
   builders_safe.2.2.2.2.2.1 rowC9 100 (by decide) (by decide),
   builders_safe.2.2.2.2.2.2 rowC9 100 (by decide) (by decide)⟩

/-- C10 counterexample: the claim fails as universally stated: this table
contains the fractional odometer value 3/2, yet cleaning fails, because
another row has an unparseable date. -/
theorem cleaning_fractional_cex :
    (∃ r ∈ tblC10, r.odometer = Value.num (mkRat 3 2)) ∧
    cleaning tblC10 = Except.error CleanError.parseError := by decide

/-- C10 witness: the amended theorem at a one-row table with fractional
odometer 3/2 and model_year -3/2: cleaning succeeds and stores the values
truncated toward zero, to 1 and -1. -/
theorem cleaning_fractional_witness :
    ((∀ r ∈ tblC10w, r.model ≠ Value.missing) ∧
     (∀ r ∈ tblC10w, (parseDate r.date_posted).isSome = true) ∧
     (∀ r ∈ tblC10w, numOrMissing r.odometer = true) ∧
     (∀ r ∈ tblC10w, numOrMissing r.cylinders = true) ∧
     (∀ r ∈ tblC10w, numOrMissing r.model_year = true)) ∧
    cleaning tblC10w = Except.ok (tblC10w.map (cleanRowIn tblC10w)) ∧
    ratTrunc (mkRat 3 2) = 1 ∧ ratTrunc (-(mkRat 3 2)) = -1 ∧
    ((tblC10w.map (cleanRowIn tblC10w)).get ⟨0, by decide⟩).odometer
      = Value.num ((ratTrunc (mkRat 3 2) : ℤ) : ℚ) ∧
    ((tblC10w.map (cleanRowIn tblC10w)).get ⟨0, by decide⟩).model_year
      = Value.num ((ratTrunc (-(mkRat 3 2)) : ℤ) : ℚ) :=
  ⟨⟨by decide, by decide, by decide, by decide, by decide⟩,
   (cleaning_fractional tblC10w (by decide) (by decide) (by decide) (by decide) (by decide)).1,
   by decide, by decide,
   ((cleaning_fractional tblC10w (by decide) (by decide) (by decide) (by decide)
      (by decide)).2 0 (by decide) (by decide) (mkRat 3 2)).1 (by decide),
   ((cleaning_fractional tblC10w (by decide) (by decide) (by decide) (by decide)
      (by decide)).2 0 (by decide) (by decide) (-(mkRat 3 2))).2.2 (by decide)⟩

end Vehicles
